import Mathlib

/-!
Verification of the `PandasValidations` wrapper
(`src/validations/PandasValidation.py`).

The module is configuration plumbing over the Great Expectations engine:
the constructor resolves a DataFrame (given directly, or read from a file
path plus a file type), `__enter__` provisions an engine context, a named
expectation suite, an in-memory datasource/asset and a validator, and
`__exit__` deletes the named suite.

We shallowly embed the module: DataFrames are lists of rows, file reads
are supplied by an explicit `FileSystem` oracle and recorded as effects,
the wrapped engine's context is an explicit value threaded through the
session, and each engine call is recorded in a trace so that call order
is observable.  Python's `ValueError`s at construction become values of
`ConfigError`; the context-manager (`with`) protocol is embedded as
`withPandasValidations`.
-/

/-- An in-memory tabular dataset: a list of rows of string cells.
Models `pandas.DataFrame` to the extent the wrapper observes it
(identity and shape). -/
structure DataFrame where
  data : List (List String)
  deriving Repr, DecidableEq

/-- `df.shape` as Python reports it: (number of rows, number of columns). -/
def DataFrame.shape (df : DataFrame) : Nat × Nat :=
  (df.data.length, (df.data.headD []).length)

/-- Oracle for the tabular-data readers `pd.read_parquet` / `pd.read_csv`:
given a path, each returns the table stored there. -/
structure FileSystem where
  readParquet : String → DataFrame
  readCsv : String → DataFrame

/-- Observable side effects of construction: file reads and log emission. -/
inductive Effect where
  | readParquetFile (path : String)
  | readCsvFile (path : String)
  | logInfo (msg : String)
  deriving Repr, DecidableEq

/-- The two `ValueError`s the constructor can raise
(the spec's `ConfigurationError`). -/
inductive ConfigError where
  | sourceMissing
  | badFileType
  deriving Repr, DecidableEq

/-- The Python error messages attached to each `ConfigError`. -/
def ConfigError.message : ConfigError → String
  | .sourceMissing => "Either df or file_path and file_type must be provided"
  | .badFileType => "file_type must be either parquet or csv"

/-- A named in-memory datasource registered in the engine context,
holding its dataframe assets by name. -/
structure Datasource where
  name : String
  assets : List String
  deriving Repr, DecidableEq

/-- Model of the external validation engine's context (spec section 6):
a store of expectation suites (by name) and of registered datasources. -/
structure GxContext where
  suites : List String
  datasources : List Datasource
  deriving Repr, DecidableEq

/-- One call made to the external engine; traces of these record the
order in which `__enter__` drives the engine. -/
inductive EngineCall where
  | getContext
  | addOrUpdateExpectationSuite (name : String)
  | addPandas (name : String)
  | addDataframeAsset (name : String)
  | buildBatchRequest
  | getValidator (suite : String)
  deriving Repr, DecidableEq

/-- A batch request over a registered asset carrying the full table
(`data_asset.build_batch_request(dataframe=self.df)`). -/
structure BatchRequest where
  datasource_name : String
  data_asset_name : String
  dataframe : DataFrame
  deriving Repr, DecidableEq

/-- The validator the engine returns, scoped to a batch request and an
expectation suite name. -/
structure Validator where
  batch_request : BatchRequest
  expectation_suite_name : String
  deriving Repr, DecidableEq

/-- Model of `gx.get_context()`: acquires a fresh, initially empty
engine context (spec: "Acquires a fresh validation-engine context"). -/
def gxGetContext : GxContext × EngineCall :=
  ({ suites := [], datasources := [] }, EngineCall.getContext)

/-- Model of `context.add_or_update_expectation_suite(name)`: idempotent
suite registration — an existing suite is reused, not duplicated. -/
def GxContext.add_or_update_expectation_suite (c : GxContext) (name : String) :
    GxContext × EngineCall :=
  (if c.suites.contains name then c else { c with suites := c.suites ++ [name] },
   EngineCall.addOrUpdateExpectationSuite name)

/-- Model of `context.sources.add_pandas(name=...)`: registers a new
in-memory datasource and returns its handle (its name). -/
def GxContext.add_pandas (c : GxContext) (nm : String) :
    (GxContext × String) × EngineCall :=
  (({ c with datasources := c.datasources ++ [{ name := nm, assets := [] }] }, nm),
   EngineCall.addPandas nm)

/-- Model of `datasource.add_dataframe_asset(name=...)`: records the asset
under the named datasource and returns the asset handle
(datasource name, asset name). -/
def GxContext.add_dataframe_asset (c : GxContext) (ds nm : String) :
    (GxContext × (String × String)) × EngineCall :=
  (({ c with
      datasources := c.datasources.map fun d =>
        if d.name == ds then { d with assets := d.assets ++ [nm] } else d },
    (ds, nm)),
   EngineCall.addDataframeAsset nm)

/-- Model of `data_asset.build_batch_request(dataframe=...)`: a request
describing "validate this whole table" over the given asset. -/
def buildBatchRequestFor (asset : String × String) (dataframe : DataFrame) :
    BatchRequest × EngineCall :=
  ({ datasource_name := asset.1, data_asset_name := asset.2, dataframe := dataframe },
   EngineCall.buildBatchRequest)

/-- Model of `context.get_validator(batch_request=..., expectation_suite_name=...)`. -/
def GxContext.get_validator (_c : GxContext) (br : BatchRequest) (sn : String) :
    Validator × EngineCall :=
  ({ batch_request := br, expectation_suite_name := sn }, EngineCall.getValidator sn)

/-- Model of `context.delete_expectation_suite(name)`: removes the suite
by name, leaving everything else in the context untouched. -/
def GxContext.delete_expectation_suite (c : GxContext) (name : String) : GxContext :=
  { c with suites := c.suites.filter fun n => n != name }

/-- The session object: fields `self.df`, `self.gx_suite_name`, and
`self.context` (absent until `__enter__` sets it). -/
structure PandasValidations where
  df : DataFrame
  gx_suite_name : String
  context : Option GxContext
  deriving Repr, DecidableEq

/-- Embedding of `PandasValidations.__init__`.  Mirrors the source line by
line: first `if df is None and (file_path is None or file_type is None)`
raises; then `if file_type not in ["parquet", "csv"]` raises (note: Python
evaluates `None not in [...]` to `True`, so an absent `file_type` also
trips this check); then the table is resolved — read from `file_path`
with the reader selected by `file_type` when `df` is absent, taken as-is
otherwise — and the shape is logged.  Returns the constructed session and
the list of side effects, or the raised `ConfigError`. -/
def PandasValidations.init (fs : FileSystem) (expectation_suite_name : String)
    (df : Option DataFrame) (file_path : Option String) (file_type : Option String) :
    Except ConfigError (PandasValidations × List Effect) :=
  if df.isNone && (file_path.isNone || file_type.isNone) then
    Except.error ConfigError.sourceMissing
  else if !(["parquet", "csv"].any fun s => file_type == some s) then
    Except.error ConfigError.badFileType
  else
    let rd : DataFrame × List Effect :=
      match df with
      | none =>
        -- here `file_path` is necessarily `some`: the first check passed with `df = none`
        let p := file_path.getD ""
        if file_type == some "parquet" then
          (fs.readParquet p, [Effect.readParquetFile p])
        else
          (fs.readCsv p, [Effect.readCsvFile p])
      | some d => (d, [])
    Except.ok
      ({ df := rd.1, gx_suite_name := expectation_suite_name, context := none },
       rd.2 ++ [Effect.logInfo ("Succefully read dataframe. Shape: " ++ toString rd.1.shape)])

/-- Embedding of `PandasValidations.__enter__`: acquires a fresh context,
registers the suite, the pandas datasource `"pandas_datasource"` and the
dataframe asset `"df_asset"`, builds a batch request over the session's
table and returns the validator, recording every engine call in order. -/
def PandasValidations.enter (s : PandasValidations) :
    PandasValidations × Validator × List EngineCall :=
  let (ctx0, e0) := gxGetContext
  let (ctx1, e1) := ctx0.add_or_update_expectation_suite s.gx_suite_name
  let ((ctx2, datasource), e2) := ctx1.add_pandas "pandas_datasource"
  let ((ctx3, data_asset), e3) := ctx2.add_dataframe_asset datasource "df_asset"
  let (batch_request, e4) := buildBatchRequestFor data_asset s.df
  let (validator, e5) := ctx3.get_validator batch_request s.gx_suite_name
  ({ s with context := some ctx3 }, validator, [e0, e1, e2, e3, e4, e5])

/-- Python exceptions reaching the context-manager protocol. -/
inductive PyErr where
  | valueError (msg : String)
  | attributeError (attr : String)
  | raisedError (tag : Nat)
  deriving Repr, DecidableEq

/-- Embedding of `PandasValidations.__exit__`: deletes the expectation
suite named `self.gx_suite_name` from `self.context`, ignoring the three
exception arguments, and falls off the end (Python returns `None`).
Accessing `self.context` before `__enter__` has set it raises
`AttributeError`. -/
def PandasValidations.exitPure (s : PandasValidations)
    (_exc_type _exc_value _exc_tb : Option PyErr) :
    Except PyErr (PandasValidations × Option Bool) :=
  match s.context with
  | none => Except.error (PyErr.attributeError "context")
  | some ctx =>
      Except.ok
        ({ s with context := some (ctx.delete_expectation_suite s.gx_suite_name) }, none)

/-- Python truthiness of the `Optional[bool]` returned by `__exit__`:
`None` is falsy, so the original exception is not suppressed. -/
def truthy (r : Option Bool) : Bool := r.getD false

/-- The `with PandasValidations(...) as validator:` protocol: `__enter__`
yields the validator to the body; on a body exception `__exit__` runs with
the exception triple and, since its return value is falsy, the exception
propagates; on normal completion `__exit__` runs with `None`s.  Returns
the block's outcome and the session after exit (or `none` if `__exit__`
itself raised). -/
def withPandasValidations (s : PandasValidations)
    (body : Validator → Except PyErr Unit) :
    Except PyErr Unit × Option PandasValidations :=
  match body (s.enter).2.1 with
  | Except.ok () =>
      match ((s.enter).1).exitPure none none none with
      | Except.error e2 => (Except.error e2, none)
      | Except.ok (s2, _ret) => (Except.ok (), some s2)
  | Except.error e =>
      match ((s.enter).1).exitPure (some e) (some e) (some e) with
      | Except.error e2 => (Except.error e2, none)
      | Except.ok (s2, ret) =>
          (if truthy ret then Except.ok () else Except.error e, some s2)

/-- A concrete file-system oracle used by the witnesses. -/
def fsW : FileSystem :=
  { readParquet := fun _ => { data := [["p1", "p2"]] },
    readCsv := fun _ => { data := [["c1"], ["c2"]] } }

/-- A concrete 3-row, 2-column table used by the witnesses. -/
def dfW : DataFrame := { data := [["1", "a"], ["2", "b"], ["3", "c"]] }

/-- A concrete freshly constructed session used by the witnesses. -/
def sessionW : PandasValidations :=
  { df := dfW, gx_suite_name := "s1", context := none }

/-- Claim C3: if `df` is absent and `file_path` or `file_type` is absent,
construction fails with the `ConfigurationError` whose message is
"Either df or file_path and file_type must be provided". -/
theorem init_requires_source (fs : FileSystem) (sname : String)
    (file_path file_type : Option String)
    (h : file_path = none ∨ file_type = none) :
    PandasValidations.init fs sname none file_path file_type =
      Except.error ConfigError.sourceMissing := by
  rcases h with h | h <;> subst h <;> simp [PandasValidations.init]

/-- Witness for C3: construction with no `df`, no `file_path`, and
`file_type = "parquet"` fails with the source-missing error. -/
theorem init_requires_source_witness :
    ((none : Option String) = none ∨ (some "parquet" : Option String) = none) ∧
    PandasValidations.init fsW "s1" none none (some "parquet") =
      Except.error ConfigError.sourceMissing :=
  ⟨Or.inl rfl, init_requires_source fsW "s1" none (some "parquet") (Or.inl rfl)⟩

/-- Claim C7: with `df` absent and both `file_path` and a recognized
`file_type` provided, the table is loaded from `file_path` by the reader
implied by `file_type`: the parquet reader for `"parquet"` and the CSV
reader for `"csv"` (and exactly that one file read is performed). -/
theorem init_reader_dispatch (fs : FileSystem) (sname p : String) :
    PandasValidations.init fs sname none (some p) (some "parquet") =
      Except.ok ({ df := fs.readParquet p, gx_suite_name := sname, context := none },
        [Effect.readParquetFile p,
         Effect.logInfo ("Succefully read dataframe. Shape: " ++
           toString (fs.readParquet p).shape)]) ∧
    PandasValidations.init fs sname none (some p) (some "csv") =
      Except.ok ({ df := fs.readCsv p, gx_suite_name := sname, context := none },
        [Effect.readCsvFile p,
         Effect.logInfo ("Succefully read dataframe. Shape: " ++
           toString (fs.readCsv p).shape)]) := by
  constructor <;> rfl

/-- Claim C10: when both an in-memory table and a valid file source are
provided, construction succeeds, the in-memory table is the resolved
table, and no file read is performed (the only effect is the log). -/
theorem init_df_precedence (fs : FileSystem) (sname p : String) (d : DataFrame)
    (ftype : String) (h : ftype = "parquet" ∨ ftype = "csv") :
    PandasValidations.init fs sname (some d) (some p) (some ftype) =
      Except.ok ({ df := d, gx_suite_name := sname, context := none },
        [Effect.logInfo ("Succefully read dataframe. Shape: " ++ toString d.shape)]) := by
  rcases h with h | h <;> subst h <;> rfl

/-- Witness for C10: a session built with both `dfW` and a CSV file source
resolves to `dfW` with no file read. -/
theorem init_df_precedence_witness :
    ("csv" = "parquet" ∨ "csv" = "csv") ∧
    PandasValidations.init fsW "s1" (some dfW) (some "/tmp/x.csv") (some "csv") =
      Except.ok ({ df := dfW, gx_suite_name := "s1", context := none },
        [Effect.logInfo ("Succefully read dataframe. Shape: " ++ toString dfW.shape)]) :=
  ⟨Or.inr rfl, init_df_precedence fsW "s1" "/tmp/x.csv" dfW "csv" (Or.inr rfl)⟩

/-- Claim C1 (failing input): constructing with only a valid in-memory
table — the module docstring's own example usage — raises the
`ValueError` "file_type must be either parquet or csv", because Python
evaluates `None not in ["parquet", "csv"]` to `True`.  The claim (and the
docstring) say such a construction succeeds. -/
theorem init_df_only_raises (fs : FileSystem) (sname : String) (d : DataFrame) :
    PandasValidations.init fs sname (some d) none none =
      Except.error ConfigError.badFileType := by
  rfl

/-- Claim C2 (failing input): the file-type `ConfigurationError` fires
even when `file_type` is simply absent (here with `df` provided and any
`file_path`), contradicting the claim that it fires only when
`file_type` is provided and unrecognized. -/
theorem init_absent_filetype_raises (fs : FileSystem) (sname : String)
    (d : DataFrame) (file_path : Option String) :
    PandasValidations.init fs sname (some d) file_path none =
      Except.error ConfigError.badFileType := by
  rfl

/-- Claim C6: scoped entry makes exactly these engine calls, in this
order: acquire a fresh context, create-or-update the suite named
`gx_suite_name`, register the pandas datasource `"pandas_datasource"`,
register the dataframe asset `"df_asset"`, build a batch request, and get
a validator for the suite.  The returned validator is scoped to the batch
request over the session's full table at that datasource/asset and to
`gx_suite_name`, and afterwards the held context contains the suite and
the datasource with its asset. -/
theorem enter_protocol (s : PandasValidations) :
    (s.enter).2.2 =
      [EngineCall.getContext,
       EngineCall.addOrUpdateExpectationSuite s.gx_suite_name,
       EngineCall.addPandas "pandas_datasource",
       EngineCall.addDataframeAsset "df_asset",
       EngineCall.buildBatchRequest,
       EngineCall.getValidator s.gx_suite_name] ∧
    (s.enter).2.1.expectation_suite_name = s.gx_suite_name ∧
    (s.enter).2.1.batch_request.dataframe = s.df ∧
    (s.enter).2.1.batch_request.datasource_name = "pandas_datasource" ∧
    (s.enter).2.1.batch_request.data_asset_name = "df_asset" ∧
    ∃ ctx, (s.enter).1.context = some ctx ∧
      s.gx_suite_name ∈ ctx.suites ∧
      ∃ d, d ∈ ctx.datasources ∧ d.name = "pandas_datasource" ∧ "df_asset" ∈ d.assets := by
  refine ⟨rfl, rfl, rfl, rfl, rfl,
    { suites := [s.gx_suite_name],
      datasources := [{ name := "pandas_datasource", assets := ["df_asset"] }] },
    rfl, ?_, ?_⟩
  · simp
  · exact ⟨{ name := "pandas_datasource", assets := ["df_asset"] }, by simp, rfl, by simp⟩

/-- Claim C5: scoped entry followed immediately by scoped exit leaves the
held context without a suite named `gx_suite_name`: the suite created on
entry is deleted on exit. -/
theorem enter_exit_roundtrip (s : PandasValidations) :
    ∃ s2 ret, ((s.enter).1).exitPure none none none = Except.ok (s2, ret) ∧
      ∃ ctx2, s2.context = some ctx2 ∧ s.gx_suite_name ∉ ctx2.suites := by
  refine ⟨_, _, rfl, _, rfl, ?_⟩
  simp [GxContext.delete_expectation_suite, List.mem_filter]
  rfl

/-- The context held right after scoped entry for session `s`: the fresh
context with the suite registered and the datasource and asset added. -/
def enterCtx (s : PandasValidations) : GxContext :=
  { suites := [s.gx_suite_name],
    datasources := [{ name := "pandas_datasource", assets := ["df_asset"] }] }

/-- The batch request scoped entry builds for session `s`. -/
def batchRequestFor (s : PandasValidations) : BatchRequest :=
  { datasource_name := "pandas_datasource", data_asset_name := "df_asset",
    dataframe := s.df }

/-- The validator scoped entry returns for session `s`. -/
def validatorFor (s : PandasValidations) : Validator :=
  { batch_request := batchRequestFor s, expectation_suite_name := s.gx_suite_name }

/-- The context left behind after scoped exit deletes the suite from
`enterCtx s`. -/
def exitCtx (s : PandasValidations) : GxContext :=
  (enterCtx s).delete_expectation_suite s.gx_suite_name

/-- Computation lemma: scoped entry evaluated — the entered session holds
`enterCtx s`, the validator is `validatorFor s`, and the engine calls
happen in the listed order. -/
theorem enter_eq (s : PandasValidations) :
    s.enter = ({ s with context := some (enterCtx s) }, validatorFor s,
      [EngineCall.getContext, EngineCall.addOrUpdateExpectationSuite s.gx_suite_name,
       EngineCall.addPandas "pandas_datasource", EngineCall.addDataframeAsset "df_asset",
       EngineCall.buildBatchRequest, EngineCall.getValidator s.gx_suite_name]) := rfl

/-- Computation lemma: if the body of the `with` block raises `e`, the
whole `with` statement re-raises `e` and the session after cleanup holds
`exitCtx s`. -/
theorem with_error_eq (s : PandasValidations)
    (body : Validator → Except PyErr Unit) (e : PyErr)
    (h : body (s.enter).2.1 = Except.error e) :
    withPandasValidations s body =
      (Except.error e, some { s with context := some (exitCtx s) }) := by
  simp only [withPandasValidations]
  rw [h]
  rfl

/-- Claim C4: if the scoped body raises an arbitrary error after entry,
scoped exit still deletes the suite named `gx_suite_name` from the held
context, and the original error propagates to the caller unchanged. -/
theorem exit_cleanup_on_error (s : PandasValidations)
    (body : Validator → Except PyErr Unit) (e : PyErr)
    (h : body (s.enter).2.1 = Except.error e) :
    (withPandasValidations s body).1 = Except.error e ∧
    ∃ s2, (withPandasValidations s body).2 = some s2 ∧
      ∃ ctx2, s2.context = some ctx2 ∧ s.gx_suite_name ∉ ctx2.suites := by
  rw [with_error_eq s body e h]
  refine ⟨rfl, { s with context := some (exitCtx s) }, rfl, exitCtx s, rfl, ?_⟩
  simp [exitCtx, enterCtx, GxContext.delete_expectation_suite, List.mem_filter]

/-- The body used by the C4 witness: it unconditionally raises. -/
def bodyW : Validator → Except PyErr Unit := fun _ => Except.error (PyErr.raisedError 7)

/-- Witness for C4: on the concrete session `sessionW`, a body raising
error 7 still reaches the caller as error 7 and the suite `"s1"` is gone
from the context afterwards. -/
theorem exit_cleanup_on_error_witness :
    bodyW (sessionW.enter).2.1 = Except.error (PyErr.raisedError 7) ∧
    ((withPandasValidations sessionW bodyW).1 = Except.error (PyErr.raisedError 7) ∧
      ∃ s2, (withPandasValidations sessionW bodyW).2 = some s2 ∧
        ∃ ctx2, s2.context = some ctx2 ∧ sessionW.gx_suite_name ∉ ctx2.suites) :=
  ⟨rfl, exit_cleanup_on_error sessionW bodyW (PyErr.raisedError 7) rfl⟩

/-- Claim C8: scoped exit deletes only the suite named `gx_suite_name`:
the context object survives (the session still holds one), its
datasources are untouched, and every other suite is preserved. -/
theorem exit_frame (s : PandasValidations) (ctx : GxContext)
    (h : s.context = some ctx) :
    ∃ s2 ret, s.exitPure none none none = Except.ok (s2, ret) ∧
      ∃ ctx2, s2.context = some ctx2 ∧
        ctx2.datasources = ctx.datasources ∧
        ctx2.suites = ctx.suites.filter (fun n => n != s.gx_suite_name) ∧
        s.gx_suite_name ∉ ctx2.suites ∧
        ∀ n, n ≠ s.gx_suite_name → (n ∈ ctx2.suites ↔ n ∈ ctx.suites) := by
  have hx : s.exitPure none none none =
      Except.ok ({ s with context := some (ctx.delete_expectation_suite s.gx_suite_name) }, none) := by
    simp [PandasValidations.exitPure, h]
  refine ⟨_, _, hx, ctx.delete_expectation_suite s.gx_suite_name, rfl, rfl, rfl, ?_, ?_⟩
  · simp [GxContext.delete_expectation_suite, List.mem_filter]
  · intro n hn
    simp [GxContext.delete_expectation_suite, List.mem_filter, bne_iff_ne, hn]

/-- A concrete context with an unrelated suite and datasource, for the
C8 witness. -/
def ctxW : GxContext :=
  { suites := ["other", "s1"], datasources := [{ name := "ds", assets := ["a"] }] }

/-- A concrete session already holding `ctxW`, for the C8 witness. -/
def enteredW : PandasValidations :=
  { df := dfW, gx_suite_name := "s1", context := some ctxW }

/-- Witness for C8: exiting `enteredW` removes only `"s1"`; `"other"`
and the `"ds"` datasource survive. -/
theorem exit_frame_witness :
    enteredW.context = some ctxW ∧
    (∃ s2 ret, enteredW.exitPure none none none = Except.ok (s2, ret) ∧
      ∃ ctx2, s2.context = some ctx2 ∧
        ctx2.datasources = ctxW.datasources ∧
        ctx2.suites = ctxW.suites.filter (fun n => n != enteredW.gx_suite_name) ∧
        enteredW.gx_suite_name ∉ ctx2.suites ∧
        ∀ n, n ≠ enteredW.gx_suite_name → (n ∈ ctx2.suites ↔ n ∈ ctxW.suites)) :=
  ⟨rfl, exit_frame enteredW ctxW rfl⟩

/-- Claim C9: the resolved table is fixed at construction — scoped entry
does not change the session's `df` field, and neither does scoped exit. -/
theorem table_immutable (s s1 s2 : PandasValidations) (v : Validator)
    (tr : List EngineCall) (e1 e2 e3 : Option PyErr) (ret : Option Bool)
    (h1 : s.enter = (s1, v, tr))
    (h2 : s1.exitPure e1 e2 e3 = Except.ok (s2, ret)) :
    s1.df = s.df ∧ s2.df = s.df := by
  have hs1 : s1.df = s.df := (congrArg (fun t => t.1.df) h1).symm
  have hs2 : s2.df = s1.df := by
    cases hctx : s1.context with
    | none =>
        simp [PandasValidations.exitPure, hctx] at h2
    | some ctx =>
        simp only [PandasValidations.exitPure, hctx] at h2
        rw [Except.ok.injEq, Prod.mk.injEq] at h2
        obtain ⟨ha, -⟩ := h2
        rw [← ha]
  exact ⟨hs1, hs2.trans hs1⟩

/-- The session produced by entering `sessionW`, for the C9 witness. -/
def enteredW2 : PandasValidations :=
  { df := dfW, gx_suite_name := "s1", context := some (enterCtx sessionW) }

/-- The session after exiting `enteredW2`, for the C9 witness. -/
def exitedW : PandasValidations :=
  { df := dfW, gx_suite_name := "s1", context := some (exitCtx sessionW) }

/-- Witness for C9: on the concrete session `sessionW`, entry and exit
both leave the `df` field equal to the constructed table. -/
theorem table_immutable_witness :
    sessionW.enter = (enteredW2, validatorFor sessionW, (sessionW.enter).2.2) ∧
    enteredW2.exitPure none none none = Except.ok (exitedW, none) ∧
    (enteredW2.df = sessionW.df ∧ exitedW.df = sessionW.df) :=
  ⟨rfl, rfl,
   table_immutable sessionW enteredW2 exitedW (validatorFor sessionW)
     (sessionW.enter).2.2 none none none none rfl rfl⟩
